import Mathlib

/-!
Verification of the SSB unemployment-statistics app (`src/app.py`).

The file embeds the app's core, the `fetch_ssb_data` body-to-table
transformation (app.py lines 49-109), and the AI insight wrapper
`get_ai_insight` (app.py lines 112-137), as executable Lean definitions,
and proves the specification's testable properties about them.

Modelling conventions:
- A JSON scalar that may appear as a dimension label or array entry is a
  `JVal` (string, integer or null).  JSON objects that the code treats as
  dictionaries are ordered association lists, matching Python's
  insertion-ordered `dict`.
- Machine parsing of strings into integers (`df["År"].astype(int)` and
  `pd.to_numeric`) is modelled by an explicit decimal parser `pyInt`.
- The pandas steps are modelled record by record: `pd.DataFrame(records)`
  followed by `df["År"].astype(int)` fails (raises, hence the `except`
  path returning `None`) when the record list is empty, because an empty
  `DataFrame` has no columns; otherwise the conversion fails exactly when
  some year label is not integer-parseable.
-/

/-- A JSON scalar value as the transform sees it: the entries of the
`value` array and the results of `dict.get` on the label/index dicts. -/
inductive JVal where
  | str (s : String)
  | int (n : Int)
  | null
  deriving DecidableEq, Repr

/-- Ordered association-list lookup, modelling Python `dict.get(k)`
(returning `None` when the key is absent). -/
def dictGet {β : Type} : List (String × β) → String → Option β
  | [], _ => none
  | (k, v) :: rest, key => if k = key then some v else dictGet rest key

/-- One dimension's `category` object from the json-stat2 body:
`index` is the ordered code → position dict, `label` the optional
code → label dict (app.py lines 66-72). -/
structure Category where
  index : List (String × Int)
  label : Option (List (String × String))
  deriving DecidableEq, Repr

/-- The parsed JSON body that `fetch_ssb_data` destructures: the three
dimensions `Tid`, `Kjonn`, `Alder` and the flat `value` array
(app.py lines 55-56). -/
structure Body where
  tid : Category
  kjonn : Category
  alder : Category
  value : List JVal
  deriving DecidableEq, Repr

/-- The fixed Norwegian gender mapping, app.py line 62:
`gender_map = {"0": "Begge kjønn", "1": "Menn", "2": "Kvinner"}`. -/
def gender_map : List (String × String) :=
  [("0", "Begge kjønn"), ("1", "Menn"), ("2", "Kvinner")]

/-- `X_labels.get(code, code)` where `X_labels` is the label dict when
`"label"` is present and otherwise the index dict (app.py lines 66-68
and 76/80).  When the label dict is absent the index dict serves as the
label source, so a code present in it yields its integer position. -/
def labelGet (c : Category) (code : String) : JVal :=
  match c.label with
  | some lbls =>
    match dictGet lbls code with
    | some s => .str s
    | none => .str code
  | none =>
    match dictGet c.index code with
    | some p => .int p
    | none => .str code

/-- One element of the `records` list built at app.py lines 91-96,
before the pandas dtype conversions. -/
structure RawRecord where
  aar : JVal
  kjonn : String
  aldersgruppe : JVal
  antall : Option JVal
  deriving DecidableEq, Repr

/-- One row of the final DataFrame, after `astype(int)` on `"År"` and
`pd.to_numeric(..., errors="coerce")` on `"Antall Arbeidsledige"`
(app.py lines 102-103). -/
structure Record where
  aar : Int
  kjonn : String
  aldersgruppe : JVal
  antall : Option Int
  deriving DecidableEq, Repr

/-- The flat position computed at app.py lines 83-85:
`time_idx * len(gender_indices) * len(age_indices) + gender_idx * len(age_indices) + age_idx`. -/
def flatPos (timeIdx genderIdx ageIdx genderCount ageCount : Nat) : Nat :=
  timeIdx * genderCount * ageCount + genderIdx * ageCount + ageIdx

/-- The triple nested loop of app.py lines 75-96: iterate the index keys
of the three dimensions with `enumerate`, compute the flat position,
read the value with the bounds guard of line 88, and emit one record per
combination. -/
def mkRecords (b : Body) : List RawRecord :=
  let time_indices := b.tid.index.map Prod.fst
  let gender_indices := b.kjonn.index.map Prod.fst
  let age_indices := b.alder.index.map Prod.fst
  time_indices.enum.flatMap fun tp =>
    gender_indices.enum.flatMap fun gp =>
      age_indices.enum.map fun ap =>
        let pos := flatPos tp.1 gp.1 ap.1 gender_indices.length age_indices.length
        { aar := labelGet b.tid tp.2
          kjonn := (dictGet gender_map gp.2).getD gp.2
          aldersgruppe := labelGet b.alder ap.2
          antall := b.value.get? pos }

/-- Decimal digit list to number; `none` on a non-digit or empty input. -/
def pyNatDigits : List Char → Option Nat
  | [] => none
  | [c] => if c.isDigit then some (c.toNat - 48) else none
  | c :: rest =>
    if c.isDigit then
      (pyNatDigits rest).map fun n => (c.toNat - 48) * 10 ^ rest.length + n
    else none

/-- Python `int(str)` as used by `astype(int)` on an object column:
an optional sign followed by decimal digits; anything else raises. -/
def pyInt (s : String) : Option Int :=
  match s.data with
  | '-' :: rest => (pyNatDigits rest).map fun n => -(n : Int)
  | l => (pyNatDigits l).map fun n => (n : Int)

/-- `df["År"].astype(int)` applied to one cell: integers pass through,
strings must parse as integers, `None`/null raises (app.py line 102). -/
def asTypeInt : JVal → Option Int
  | .int n => some n
  | .str s => pyInt s
  | .null => none

/-- `pd.to_numeric(cell, errors="coerce")`: numbers pass, numeric
strings parse, everything else (including missing) becomes NaN,
modelled as `none` (app.py line 103). -/
def toNumeric : Option JVal → Option Int
  | some (.int n) => some n
  | some (.str s) => pyInt s
  | some .null => none
  | none => none

/-- The column conversions of app.py lines 102-103 applied row by row
to a DataFrame that has the four columns: the conversion of the whole
frame fails exactly when some `"År"` cell is not integer-parseable. -/
def convertRecords : List RawRecord → Option (List Record)
  | [] => some []
  | r :: rs =>
    match asTypeInt r.aar, convertRecords rs with
    | some y, some rest =>
      some ({ aar := y, kjonn := r.kjonn, aldersgruppe := r.aldersgruppe,
              antall := toNumeric r.antall } :: rest)
    | _, _ => none

/-- The whole body-to-table step of `fetch_ssb_data` (app.py lines
55-105): build the records, then run the pandas steps of lines 99-103.
When `records` is empty, `pd.DataFrame(records)` has no columns, so the
column access `df["År"]` at line 102 raises `KeyError`, which the
enclosing `except` turns into `None`; otherwise the row conversions
run.  Any raise is caught at line 107 and yields `none`. -/
def transform (b : Body) : Option (List Record) :=
  if mkRecords b = [] then none
  else convertRecords (mkRecords b)

/-- Outcome of the single `requests.post` + `raise_for_status` +
`response.json()` sequence (app.py lines 50-52), as the code observes
it: a transport failure, an HTTP error status (the kind
`raise_for_status` raises on), a JSON decode failure, or a parsed body. -/
inductive FetchOutcome where
  | transportError
  | httpError
  | malformedJson
  | ok (body : Body)
  deriving DecidableEq, Repr

/-- What one call of `fetch_ssb_data` produces: the returned value
(`some` table or the `None` signal), whether `st.error` was shown, and
how many HTTP requests were issued. -/
structure FetchResult where
  result : Option (List Record)
  errorReported : Bool
  requests : Nat
  deriving DecidableEq, Repr

/-- `fetch_ssb_data` (app.py lines 32-109) as a function of the network
outcome: exactly one request; every exception (transport, HTTP status,
JSON decode, or any raise inside the transform) is caught by the single
`except` clause, reported via `st.error`, and turned into `None`. -/
def fetch_ssb_data : FetchOutcome → FetchResult
  | .ok b =>
    match transform b with
    | some t => { result := some t, errorReported := false, requests := 1 }
    | none => { result := none, errorReported := true, requests := 1 }
  | _ => { result := none, errorReported := true, requests := 1 }

/-- The year codes requested by the fixed payload (app.py line 44). -/
def payload_years : List String :=
  ["2015", "2016", "2017", "2018", "2019", "2020", "2021", "2022", "2023", "2024"]

/-- The gender codes requested by the fixed payload (app.py line 41). -/
def payload_gender_codes : List String := ["0", "1", "2"]

/-- Substring occurrence on character lists, modelling Python's
`"needle" in str(e)` test at app.py line 135. -/
def leadMatch : List Char → List Char → Bool
  | [], _ => true
  | _ :: _, [] => false
  | a :: as, b :: bs => a == b && leadMatch as bs

/-- `needle` occurs somewhere in `hay`. -/
def occursIn (needle hay : List Char) : Bool :=
  match hay with
  | [] => leadMatch needle []
  | _ :: t => leadMatch needle hay || occursIn needle t

/-- The fixed informational string returned when no API key is stored
(app.py line 119). -/
def noKeyMsg : String :=
  "Vennligst oppgi en Google Gemini API-nøkkel for å generere innsikt."

/-- The error string built at app.py lines 134-136 from the caught
exception's message. -/
def aiErrorMessage (e : String) : String :=
  let base := "Kunne ikke generere KI-innsikt: " ++ e
  if occursIn "API key not valid".data e.data then
    base ++ "\nVennligst sjekk om API-nøkkelen er korrekt."
  else base

/-- Outcome of the Gemini call sequence (app.py lines 122-129) when it
is attempted: either generated text or an exception with a message. -/
inductive AIOutcome where
  | success (text : String)
  | failure (errMsg : String)
  deriving DecidableEq, Repr

/-- What one call of `get_ai_insight` produces: the returned string and
whether the Gemini API was contacted. -/
structure AIResult where
  text : String
  networkCalled : Bool
  deriving DecidableEq, Repr

/-- `get_ai_insight` (app.py lines 112-137) as a function of the stored
key and the service outcome.  `st.session_state.get("GEMINI_API_KEY")`
is falsy when the key is unset (`none`) or the empty string; in that
case the fixed message is returned before any API configuration or
call.  Otherwise the call is attempted and any exception is caught and
rendered by `aiErrorMessage`.  `data` and `prompt_context` only feed the
prompt, whose response `outcome` abstracts. -/
def get_ai_insight (apiKey : Option String) (outcome : AIOutcome)
    (data prompt_context : String) : AIResult :=
  if apiKey.getD "" = "" then
    { text := noKeyMsg, networkCalled := false }
  else
    match outcome with
    | .success t => { text := t, networkCalled := true }
    | .failure e => { text := aiErrorMessage e, networkCalled := true }

/-- The mocked API response of the spec's end-to-end scenario:
`dimension.Tid.category.index = {"2020":0,"2021":1}`,
`dimension.Kjonn.category.index = {"0":0}`,
`dimension.Alder.category.index = {"15-74":0}`, no label maps, and
`value = [100, 120]`. -/
def B1 : Body :=
  { tid := { index := [("2020", 0), ("2021", 1)], label := none }
    kjonn := { index := [("0", 0)], label := none }
    alder := { index := [("15-74", 0)], label := none }
    value := [.int 100, .int 120] }

/-- `B1` with the synthetic value array `[0, 1]` (`T = 2`, `G = A = 1`). -/
def B3 : Body := { B1 with value := [.int 0, .int 1] }

/-- `B1` with an empty time dimension and an empty value array. -/
def B5 : Body :=
  { B1 with tid := { index := [], label := none }, value := [] }

/-- `B1` with a value array shorter than the declared index product. -/
def B6 : Body := { B1 with value := [.int 100] }

/-- A body as the fixed payload's response delivers it: year code
`"2020"` whose label echoes the code, gender code `"1"`, with a gender
label the remapping must ignore. -/
def B7 : Body :=
  { tid := { index := [("2020", 0)], label := some [("2020", "2020")] }
    kjonn := { index := [("1", 0)], label := some [("1", "ikke brukt")] }
    alder := { index := [("15-74", 0)], label := none }
    value := [.int 5] }

/-- `B1` with a gender code outside the fixed table's domain. -/
def B10 : Body :=
  { B1 with kjonn := { index := [("9", 0)], label := none } }

/-! ### General list lemmas -/

theorem length_flatMap_const {α β : Type} (f : α → List β) (c : Nat)
    (l : List α) (h : ∀ a ∈ l, (f a).length = c) :
    (l.flatMap f).length = l.length * c := by
  induction l with
  | nil => simp
  | cons a t ih =>
    simp only [List.flatMap_cons, List.length_append, List.length_cons]
    rw [h a (by simp), ih (fun x hx => h x (by simp [hx]))]
    ring

theorem get?_flatMap_const {α β : Type} (f : α → List β) (c : Nat)
    (l : List α) (i r : Nat) (h : ∀ a ∈ l, (f a).length = c) (hr : r < c) :
    (l.flatMap f).get? (i * c + r) = (l.get? i).bind fun a => (f a).get? r := by
  induction l generalizing i with
  | nil => simp
  | cons a t ih =>
    cases i with
    | zero =>
      simp only [List.flatMap_cons, Nat.zero_mul, Nat.zero_add]
      rw [List.get?_append (by rw [h a (by simp)]; exact hr)]
      simp
    | succ i =>
      simp only [List.flatMap_cons]
      have hlen : (f a).length = c := h a (by simp)
      have harith : (i + 1) * c + r = (f a).length + (i * c + r) := by rw [hlen]; ring
      rw [harith, List.get?_append_right (by omega)]
      have hsub : (f a).length + (i * c + r) - (f a).length = i * c + r := by omega
      rw [hsub, ih i (fun x hx => h x (List.mem_cons_of_mem a hx))]
      simp

theorem get?_enum {α : Type} (l : List α) (i : Nat) :
    l.enum.get? i = (l.get? i).map fun a => (i, a) := by
  simp [List.get?_eq_getElem?, List.getElem?_enum]

theorem get?_of_lt {α : Type} (l : List α) (i : Nat) (h : i < l.length) :
    l.get? i = some (l.get ⟨i, h⟩) := by
  simp [List.get?_eq_getElem?, List.getElem?_eq_getElem h, List.get_eq_getElem]

/-! ### Structure of `mkRecords` -/

theorem length_mkRecords (b : Body) :
    (mkRecords b).length =
      b.tid.index.length * (b.kjonn.index.length * b.alder.index.length) := by
  simp only [mkRecords]
  rw [length_flatMap_const _ (b.kjonn.index.length * b.alder.index.length) _
    (fun tp _ => by
      rw [length_flatMap_const _ b.alder.index.length _ (fun gp _ => by simp)]
      simp)]
  simp

theorem get?_mkRecords (b : Body) (i j k : Nat)
    (hi : i < b.tid.index.length) (hj : j < b.kjonn.index.length)
    (hk : k < b.alder.index.length) :
    (mkRecords b).get?
        (flatPos i j k b.kjonn.index.length b.alder.index.length) =
      some
        { aar := labelGet b.tid (b.tid.index.get ⟨i, hi⟩).1
          kjonn := (dictGet gender_map (b.kjonn.index.get ⟨j, hj⟩).1).getD
            (b.kjonn.index.get ⟨j, hj⟩).1
          aldersgruppe := labelGet b.alder (b.alder.index.get ⟨k, hk⟩).1
          antall := b.value.get?
            (flatPos i j k b.kjonn.index.length b.alder.index.length) } := by
  have hrk : j * b.alder.index.length + k <
      b.kjonn.index.length * b.alder.index.length := by
    calc j * b.alder.index.length + k < j * b.alder.index.length + b.alder.index.length := by omega
    _ = (j + 1) * b.alder.index.length := by ring
    _ ≤ b.kjonn.index.length * b.alder.index.length :=
        Nat.mul_le_mul_right _ hj
  have harith : flatPos i j k b.kjonn.index.length b.alder.index.length
      = i * (b.kjonn.index.length * b.alder.index.length)
        + (j * b.alder.index.length + k) := by
    simp only [flatPos]; ring
  simp only [mkRecords, List.length_map]
  rw [harith,
    get?_flatMap_const _ (b.kjonn.index.length * b.alder.index.length) _ i
      (j * b.alder.index.length + k)
      (fun tp _ => by
        rw [length_flatMap_const _ b.alder.index.length _ (fun gp _ => by simp)]
        simp)
      hrk,
    get?_enum, List.get?_map, get?_of_lt _ i hi]
  simp only [Option.map_some', Option.some_bind]
  rw [get?_flatMap_const _ b.alder.index.length _ j k (fun gp _ => by simp) hk,
    get?_enum, List.get?_map, get?_of_lt _ j hj]
  simp only [Option.map_some', Option.some_bind]
  rw [List.get?_map, get?_enum, List.get?_map, get?_of_lt _ k hk]
  simp only [Option.map_some', Option.some_bind, flatPos]
  simp [Nat.mul_assoc, Nat.add_assoc]

theorem flatPos_lt (i j k G A T : Nat) (hi : i < T) (hj : j < G) (hk : k < A) :
    flatPos i j k G A < T * G * A := by
  simp only [flatPos]
  calc i * G * A + j * A + k < i * G * A + j * A + A := by omega
  _ = (i * G + j + 1) * A := by ring
  _ ≤ T * G * A := by
      have h1 : i * G + j + 1 ≤ (i + 1) * G := by
        have : j + 1 ≤ G := hj
        calc i * G + j + 1 ≤ i * G + G := by omega
        _ = (i + 1) * G := by ring
      have h2 : (i + 1) * G ≤ T * G := Nat.mul_le_mul_right _ hi
      have h3 : (i * G + j + 1) * A ≤ (T * G) * A :=
        Nat.mul_le_mul_right _ (le_trans h1 h2)
      exact h3

/-! ### Structure of `convertRecords` -/

theorem convertRecords_length (rs : List RawRecord) (out : List Record)
    (h : convertRecords rs = some out) : out.length = rs.length := by
  induction rs generalizing out with
  | nil =>
    simp only [convertRecords, Option.some.injEq] at h
    simp [← h]
  | cons a t ih =>
    cases hy : asTypeInt a.aar with
    | none => simp [convertRecords, hy] at h
    | some y =>
      cases ht : convertRecords t with
      | none => simp [convertRecords, hy, ht] at h
      | some rest =>
        simp only [convertRecords, hy, ht, Option.some.injEq] at h
        simp [← h, ih rest ht]

theorem convertRecords_mem (rs : List RawRecord) (out : List Record)
    (h : convertRecords rs = some out) (r : Record) (hr : r ∈ out) :
    ∃ raw ∈ rs, asTypeInt raw.aar = some r.aar ∧ r.kjonn = raw.kjonn ∧
      r.aldersgruppe = raw.aldersgruppe ∧ r.antall = toNumeric raw.antall := by
  induction rs generalizing out with
  | nil =>
    simp only [convertRecords, Option.some.injEq] at h
    rw [← h] at hr
    simp at hr
  | cons a t ih =>
    cases hy : asTypeInt a.aar with
    | none => simp [convertRecords, hy] at h
    | some y =>
      cases ht : convertRecords t with
      | none => simp [convertRecords, hy, ht] at h
      | some rest =>
        simp only [convertRecords, hy, ht, Option.some.injEq] at h
        rw [← h] at hr
        rcases List.mem_cons.mp hr with hreq | hrm
        · subst hreq
          exact ⟨a, by simp, hy, rfl, rfl, rfl⟩
        · obtain ⟨raw, hraw, hrest⟩ := ih rest ht hrm
          exact ⟨raw, by simp [hraw], hrest⟩

/-! ### Membership in `mkRecords` -/

theorem mem_mkRecords (b : Body) (raw : RawRecord) (h : raw ∈ mkRecords b) :
    ∃ tc ∈ b.tid.index.map Prod.fst, ∃ gc ∈ b.kjonn.index.map Prod.fst,
      ∃ ac ∈ b.alder.index.map Prod.fst,
        raw.aar = labelGet b.tid tc ∧
        raw.kjonn = (dictGet gender_map gc).getD gc ∧
        raw.aldersgruppe = labelGet b.alder ac := by
  simp only [mkRecords] at h
  obtain ⟨tp, htp, h⟩ := List.mem_flatMap.mp h
  obtain ⟨gp, hgp, h⟩ := List.mem_flatMap.mp h
  obtain ⟨ap, hap, hap2⟩ := List.mem_map.mp h
  refine ⟨tp.2, List.snd_mem_of_mem_enum htp, gp.2, List.snd_mem_of_mem_enum hgp,
    ap.2, List.snd_mem_of_mem_enum hap, ?_, ?_, ?_⟩ <;> rw [← hap2]

/-! ### The fixed payload's codes -/

theorem year_code_int_range (c : String) (hc : c ∈ payload_years) (y : Int)
    (hy : pyInt c = some y) : 2015 ≤ y ∧ y ≤ 2024 := by
  have hall : ∀ x ∈ payload_years,
      (match pyInt x with
        | some z => decide (2015 ≤ z ∧ z ≤ 2024)
        | none => false) = true := by decide
  have h := hall c hc
  rw [hy] at h
  exact of_decide_eq_true h

theorem gender_code_label (c : String) (hc : c ∈ payload_gender_codes) :
    (dictGet gender_map c).getD c ∈ (["Begge kjønn", "Menn", "Kvinner"] : List String) := by
  have hall : ∀ x ∈ payload_gender_codes,
      (dictGet gender_map x).getD x ∈ (["Begge kjønn", "Menn", "Kvinner"] : List String) := by
    decide
  exact hall c hc

/-! ### Claims -/

/-- C1 (counterexample): on the spec's mocked body `B1` the transform does
NOT produce the two Records `{year:2020, gender:"Begge kjønn",
age_group:"15-74", count:100}` and `{year:2021, gender:"Begge kjønn",
age_group:"15-74", count:120}` claimed by the spec. -/
theorem ssb_scenario_counterexample :
    transform B1 ≠
      some [{ aar := 2020, kjonn := "Begge kjønn", aldersgruppe := .str "15-74",
              antall := some 100 },
            { aar := 2021, kjonn := "Begge kjønn", aldersgruppe := .str "15-74",
              antall := some 120 }] := by
  decide

/-- C1 (amended): on the spec's mocked body `B1` (no label maps) the
transform produces exactly two Records, but with the years and
age-group labels taken from the index dicts' integer positions:
`{year:0, gender:"Begge kjønn", age_group:0, count:100}` and
`{year:1, gender:"Begge kjønn", age_group:0, count:120}`. -/
theorem ssb_scenario_actual :
    transform B1 =
      some [{ aar := 0, kjonn := "Begge kjønn", aldersgruppe := .int 0,
              antall := some 100 },
            { aar := 1, kjonn := "Begge kjønn", aldersgruppe := .int 0,
              antall := some 120 }] := by
  decide

/-- C2 (counterexample): in body `B1` the time axis has no label map and
the label used in the emitted Record for year code `"2020"` is the
code's integer position `0` in the index mapping, not the code itself. -/
theorem label_fallback_counterexample :
    ((mkRecords B1).get? 0).map RawRecord.aar = some (JVal.int 0) ∧
      JVal.int 0 ≠ JVal.str "2020" := by
  decide

/-- C2 (amended): for the time and age-group axes, when the body
supplies no label map for the axis, the label used in the emitted
Record for a code is the index mapping's value for that code — its
integer position — not the code itself (the code is only the fallback
for keys absent from the dict, which never happens for iterated codes);
the gender axis never consults the body's labels at all — its field is
always `gender_map.get(code, code)`. The theorem exhibits the whole
emitted Record for a combination under these conditions. -/
theorem label_fallback_uses_index_position (b : Body) (i j k : Nat) (p q : Int)
    (hi : i < b.tid.index.length) (hj : j < b.kjonn.index.length)
    (hk : k < b.alder.index.length)
    (hlT : b.tid.label = none)
    (hlA : b.alder.label = none)
    (hp : dictGet b.tid.index (b.tid.index.get ⟨i, hi⟩).1 = some p)
    (hq : dictGet b.alder.index (b.alder.index.get ⟨k, hk⟩).1 = some q) :
    (mkRecords b).get?
        (flatPos i j k b.kjonn.index.length b.alder.index.length) =
      some
        { aar := JVal.int p
          kjonn := (dictGet gender_map (b.kjonn.index.get ⟨j, hj⟩).1).getD
            (b.kjonn.index.get ⟨j, hj⟩).1
          aldersgruppe := JVal.int q
          antall := b.value.get?
            (flatPos i j k b.kjonn.index.length b.alder.index.length) } := by
  rw [get?_mkRecords b i j k hi hj hk]
  simp only [List.get_eq_getElem] at hp hq
  simp [labelGet, hlT, hlA, hp, hq]

/-- Witness for `label_fallback_uses_index_position` at `B1`: time code
`"2020"` and age code `"15-74"` both yield their index position `0`,
while the gender field is the fixed mapping's `"Begge kjønn"`. -/
theorem label_fallback_uses_index_position_witness :
    (mkRecords B1).get? (flatPos 0 0 0 B1.kjonn.index.length B1.alder.index.length) =
      some
        { aar := JVal.int 0
          kjonn := "Begge kjønn"
          aldersgruppe := JVal.int 0
          antall := some (JVal.int 100) } :=
  label_fallback_uses_index_position B1 0 0 0 0 0 (by decide) (by decide) (by decide)
    rfl rfl (by decide) (by decide)

/-- C3: flattening is order-faithful: when the value array is
`[0, 1, ..., T*G*A - 1]`, the Record emitted for the combination
(time position `i`, gender position `j`, age position `k`) carries
count `i*G*A + j*A + k`. -/
theorem flatten_order_faithful (b : Body) (i j k : Nat)
    (hi : i < b.tid.index.length) (hj : j < b.kjonn.index.length)
    (hk : k < b.alder.index.length)
    (hv : b.value = (List.range
        (b.tid.index.length * b.kjonn.index.length * b.alder.index.length)).map
        (fun n : Nat => JVal.int (Int.ofNat n))) :
    ((mkRecords b).get?
        (flatPos i j k b.kjonn.index.length b.alder.index.length)).map
      RawRecord.antall =
      some (some (JVal.int (Int.ofNat
        (i * b.kjonn.index.length * b.alder.index.length
          + j * b.alder.index.length + k)))) := by
  rw [get?_mkRecords b i j k hi hj hk]
  simp only [Option.map_some', Option.some.injEq]
  have hlt := flatPos_lt i j k b.kjonn.index.length b.alder.index.length
    b.tid.index.length hi hj hk
  rw [hv, List.get?_map, get?_of_lt _ _ (by simpa using hlt)]
  simp only [Option.map_some', List.get_eq_getElem, List.getElem_range, flatPos]

/-- Witness for `flatten_order_faithful` at `B3` (`T = 2`, `G = A = 1`),
combination `(1, 0, 0)`. -/
theorem flatten_order_faithful_witness :
    ((mkRecords B3).get?
        (flatPos 1 0 0 B3.kjonn.index.length B3.alder.index.length)).map
      RawRecord.antall =
      some (some (JVal.int (Int.ofNat
        (1 * B3.kjonn.index.length * B3.alder.index.length
          + 0 * B3.alder.index.length + 0)))) :=
  flatten_order_faithful B3 1 0 0 (by decide) (by decide) (by decide) (by decide)

/-- C4: whenever the transform produces a Table, its number of Records
is the product of the three index-mapping sizes. -/
theorem table_length_eq_product (b : Body) (tbl : List Record)
    (h : transform b = some tbl) :
    tbl.length = b.tid.index.length * b.kjonn.index.length * b.alder.index.length := by
  unfold transform at h
  by_cases hmk : mkRecords b = []
  · simp [hmk] at h
  · rw [if_neg hmk] at h
    rw [convertRecords_length _ _ h, length_mkRecords]
    ring

/-- Witness for `table_length_eq_product` at `B1`. -/
theorem table_length_eq_product_witness :
    ([{ aar := 0, kjonn := "Begge kjønn", aldersgruppe := .int 0, antall := some 100 },
      { aar := 1, kjonn := "Begge kjønn", aldersgruppe := .int 0, antall := some 120 }]
        : List Record).length =
      B1.tid.index.length * B1.kjonn.index.length * B1.alder.index.length :=
  table_length_eq_product B1 _ (by decide)

/-- C5 (counterexample): on body `B5`, whose time dimension's index
mapping is empty, the transform does not succeed with zero Records: it
takes the error path (the `except` clause reports an error and `None`
is returned). -/
theorem empty_dimension_counterexample :
    transform B5 = none ∧ (fetch_ssb_data (.ok B5)).errorReported = true := by
  decide

/-- C5 (amended): for every body in which at least one of the three
dimension index mappings is empty, the records list is empty, so
`pd.DataFrame([])` has no columns, the year-column access raises, and
`fetch_ssb_data` reports an error and returns the "no data" signal. -/
theorem empty_dimension_error_path (b : Body)
    (h : b.tid.index = [] ∨ b.kjonn.index = [] ∨ b.alder.index = []) :
    mkRecords b = [] ∧ transform b = none ∧
      fetch_ssb_data (.ok b) =
        { result := none, errorReported := true, requests := 1 } := by
  have hmk : mkRecords b = [] := by
    have hlen := length_mkRecords b
    rcases h with h | h | h <;> rw [h] at hlen <;> simpa using hlen
  exact ⟨hmk, by simp [transform, hmk], by simp [fetch_ssb_data, transform, hmk]⟩

/-- Witness for `empty_dimension_error_path` at `B5`. -/
theorem empty_dimension_error_path_witness :
    mkRecords B5 = [] ∧ transform B5 = none ∧
      fetch_ssb_data (.ok B5) =
        { result := none, errorReported := true, requests := 1 } :=
  empty_dimension_error_path B5 (Or.inl rfl)

/-- C6: for every combination whose computed flat position is at or
beyond the end of the value array, the emitted Record's count is
missing; the (bounds-guarded) value-array access never raises. -/
theorem out_of_range_count_missing (b : Body) (i j k : Nat)
    (hi : i < b.tid.index.length) (hj : j < b.kjonn.index.length)
    (hk : k < b.alder.index.length)
    (hpos : b.value.length ≤
      flatPos i j k b.kjonn.index.length b.alder.index.length) :
    ((mkRecords b).get?
        (flatPos i j k b.kjonn.index.length b.alder.index.length)).map
      RawRecord.antall = some none := by
  rw [get?_mkRecords b i j k hi hj hk]
  simp only [Option.map_some', Option.some.injEq]
  exact List.get?_eq_none.mpr hpos

/-- Witness for `out_of_range_count_missing` at `B6` (value array of
length `1`, combination `(1, 0, 0)` with flat position `1`). -/
theorem out_of_range_count_missing_witness :
    ((mkRecords B6).get?
        (flatPos 1 0 0 B6.kjonn.index.length B6.alder.index.length)).map
      RawRecord.antall = some none :=
  out_of_range_count_missing B6 1 0 0 (by decide) (by decide) (by decide) (by decide)

/-- C7: for every body as produced by the fixed fetch payload — year
codes drawn from the requested 2015–2024 list with the response's time
labels echoing the codes, and gender codes drawn from {"0","1","2"} —
every Record of the produced Table has an integer year in [2015, 2024]
and a gender label from the fixed three-entry table, regardless of what
gender labels the body itself supplies (no hypothesis constrains them). -/
theorem payload_records_year_gender (b : Body) (tl : List (String × String))
    (tbl : List Record) (r : Record)
    (hT : ∀ p ∈ b.tid.index, p.1 ∈ payload_years)
    (hTl : b.tid.label = some tl)
    (hEcho : ∀ p ∈ b.tid.index, dictGet tl p.1 = some p.1)
    (hG : ∀ p ∈ b.kjonn.index, p.1 ∈ payload_gender_codes)
    (htr : transform b = some tbl) (hr : r ∈ tbl) :
    (2015 ≤ r.aar ∧ r.aar ≤ 2024) ∧
      r.kjonn ∈ (["Begge kjønn", "Menn", "Kvinner"] : List String) := by
  unfold transform at htr
  by_cases hmk : mkRecords b = []
  · simp [hmk] at htr
  · rw [if_neg hmk] at htr
    obtain ⟨raw, hraw, hy, hkj, -, -⟩ := convertRecords_mem _ _ htr r hr
    obtain ⟨tc, htc, gc, hgc, -, -, haar, hkraw, -⟩ := mem_mkRecords b raw hraw
    obtain ⟨p, hp, rfl⟩ := List.mem_map.mp htc
    obtain ⟨q, hq, rfl⟩ := List.mem_map.mp hgc
    constructor
    · have hlab : labelGet b.tid p.1 = .str p.1 := by
        simp [labelGet, hTl, hEcho p hp]
      rw [haar, hlab] at hy
      simp only [asTypeInt] at hy
      exact year_code_int_range p.1 (hT p hp) r.aar hy
    · rw [hkj, hkraw]
      exact gender_code_label q.1 (hG q hq)

/-- Witness for `payload_records_year_gender` at `B7` (year code
`"2020"`, gender code `"1"`, a supplied gender label that is ignored). -/
theorem payload_records_year_gender_witness :
    (2015 ≤ ({ aar := 2020, kjonn := "Menn", aldersgruppe := JVal.int 0, antall := some 5 } : Record).aar ∧
      ({ aar := 2020, kjonn := "Menn", aldersgruppe := JVal.int 0, antall := some 5 } : Record).aar ≤ 2024) ∧
      ({ aar := 2020, kjonn := "Menn", aldersgruppe := JVal.int 0, antall := some 5 } : Record).kjonn ∈
        (["Begge kjønn", "Menn", "Kvinner"] : List String) :=
  payload_records_year_gender B7 [("2020", "2020")]
    [{ aar := 2020, kjonn := "Menn", aldersgruppe := JVal.int 0, antall := some 5 }]
    { aar := 2020, kjonn := "Menn", aldersgruppe := JVal.int 0, antall := some 5 }
    (by decide) rfl (by decide) (by decide) (by decide) (by decide)

/-- C8: when the stored credential is unset or empty, `get_ai_insight`
returns the fixed informational string and performs no network call;
and for a failing call, the returned text is always one of the handled
human-readable strings (the no-key message or the rendered error
message) — no exception propagates. -/
theorem ai_insight_no_key_and_total (apiKey : Option String) (o : AIOutcome)
    (data prompt_context e : String) :
    (apiKey.getD "" = "" →
      get_ai_insight apiKey o data prompt_context =
        { text := noKeyMsg, networkCalled := false }) ∧
    (get_ai_insight apiKey (.failure e) data prompt_context).text ∈
      ([noKeyMsg, aiErrorMessage e] : List String) := by
  constructor
  · intro h
    simp [get_ai_insight, h]
  · by_cases h : apiKey.getD "" = "" <;> simp [get_ai_insight, h]

/-- Witness for `ai_insight_no_key_and_total` with an unset key. -/
theorem ai_insight_no_key_and_total_witness :
    get_ai_insight none (.success "tekst") "data" "prompt" =
      { text := noKeyMsg, networkCalled := false } ∧
    (get_ai_insight none (.failure "feil") "data" "prompt").text ∈
      ([noKeyMsg, aiErrorMessage "feil"] : List String) :=
  ⟨(ai_insight_no_key_and_total none (.success "tekst") "data" "prompt" "feil").1 rfl,
   (ai_insight_no_key_and_total none (.failure "feil") "data" "prompt" "feil").2⟩

/-- C9: every error fetch outcome (transport error, HTTP error status,
malformed JSON) is caught: an error is reported and the explicit
"no data" signal `None` is returned instead of an exception; and every
call of `fetch_ssb_data`, whatever the outcome, issues exactly one
request (no retry). -/
theorem fetch_error_paths (o : FetchOutcome)
    (h : o = .transportError ∨ o = .httpError ∨ o = .malformedJson) :
    fetch_ssb_data o =
        { result := none, errorReported := true, requests := 1 } ∧
      ∀ o' : FetchOutcome, (fetch_ssb_data o').requests = 1 := by
  constructor
  · rcases h with rfl | rfl | rfl <;> rfl
  · intro o'
    cases o' with
    | ok b =>
      cases htb : transform b <;> simp [fetch_ssb_data, htb]
    | transportError => rfl
    | httpError => rfl
    | malformedJson => rfl

/-- Witness for `fetch_error_paths` at a transport error. -/
theorem fetch_error_paths_witness :
    fetch_ssb_data .transportError =
        { result := none, errorReported := true, requests := 1 } ∧
      ∀ o' : FetchOutcome, (fetch_ssb_data o').requests = 1 :=
  fetch_error_paths .transportError (Or.inl rfl)

/-- C10: a gender code outside the fixed table's domain {"0","1","2"}
passes through unchanged: the emitted Record's gender field is the raw
code itself. -/
theorem unknown_gender_code_passthrough (b : Body) (i j k : Nat) (c : String)
    (hi : i < b.tid.index.length) (hj : j < b.kjonn.index.length)
    (hk : k < b.alder.index.length)
    (hc : (b.kjonn.index.get ⟨j, hj⟩).1 = c)
    (hnot : c ∉ (["0", "1", "2"] : List String)) :
    ((mkRecords b).get?
        (flatPos i j k b.kjonn.index.length b.alder.index.length)).map
      RawRecord.kjonn = some c := by
  rw [get?_mkRecords b i j k hi hj hk]
  simp only [Option.map_some', Option.some.injEq]
  rw [hc]
  have h0 : ("0" : String) ≠ c := fun h => hnot (by simp [h.symm])
  have h1 : ("1" : String) ≠ c := fun h => hnot (by simp [h.symm])
  have h2 : ("2" : String) ≠ c := fun h => hnot (by simp [h.symm])
  simp [dictGet, gender_map, h0, h1, h2]

/-- Witness for `unknown_gender_code_passthrough` at `B10` (gender code
`"9"`). -/
theorem unknown_gender_code_passthrough_witness :
    ((mkRecords B10).get?
        (flatPos 0 0 0 B10.kjonn.index.length B10.alder.index.length)).map
      RawRecord.kjonn = some "9" :=
  unknown_gender_code_passthrough B10 0 0 0 "9" (by decide) (by decide) (by decide)
    (by decide) (by decide)
